import Mathlib

/-!
Verification of the git-backed job-queue library (`Queue` class and its
collaborators).  TypeScript strings are embedded as `List Char`; the
`simple-git` collaborator is embedded as an explicit `GitState` record with a
log (most-recent commit first), a current branch, a remote flag and a flag
saying whether a push to the remote would be rejected.  Methods that can
`throw` return `Except QueueError _`; the writer operations additionally
thread the queue state through both branches, because in the source a thrown
exception leaves every mutation that already happened in place.
-/

/-- A TypeScript string, embedded as its sequence of characters. -/
abbrev JSString := List Char

/-- Convenience conversion from a Lean string literal. -/
def jsStr (s : String) : JSString := s.toList

/-- TypeScript `s.endsWith(suffix)`. -/
def strEndsWith (s suffix : JSString) : Bool := List.isSuffixOf suffix s

/-- TypeScript `s.startsWith(pre)`. -/
def strStartsWith (s pre : JSString) : Bool := List.isPrefixOf pre s

/-- TypeScript `s.includes(sub)`: `sub` occurs somewhere inside `s`. -/
def strIncludes : JSString → JSString → Bool
  | [], sub => List.isPrefixOf sub []
  | s@(_ :: t), sub => List.isPrefixOf sub s || strIncludes t sub

/-- TypeScript `s.trim()`: strip leading and trailing whitespace. -/
def strTrim (s : JSString) : JSString :=
  ((s.dropWhile Char.isWhitespace).reverse.dropWhile Char.isWhitespace).reverse

/-- Modelled from the spec: the lock-claim subject-prefix literal of
`stored-message.ts` (the file itself is not under `src/`); spec section 6
fixes the literal exactly. -/
def CREATE_JOB_SUBJECT_PREFIX : JSString := jsStr "CLAIM LOCK: JOB: "

/-- Modelled from the spec: the lock-release subject-prefix literal of
`stored-message.ts` (the file itself is not under `src/`); spec section 6
fixes the literal exactly. -/
def MARK_JOB_AS_DONE_SUBJECT_PREFIX : JSString := jsStr "RELEASE LOCK: JOB DONE: "

/-- One commit as returned by `simple-git`'s `log()`: `message` is the
subject line, `body` the remaining paragraphs. -/
structure DefaultLogFields where
  hash : JSString
  message : JSString
  body : JSString
deriving DecidableEq, Repr

/-- The errors the component can throw, one constructor per `throw` site /
error kind of the taxonomy. -/
inductive QueueError where
  | notARepository (gitRepoDir : JSString)
  | logError (message : JSString)
  | unrecognizedEvent (commitHash : JSString)
  | jobAlreadyPending (commitHash : JSString)
  | noPendingJob
  | publishRejected
deriving DecidableEq, Repr

/-- Modelled from the spec: the stored-message variants of
`stored-message.ts` (not under `src/`): a lock-claim event, a lock-release
event, and the null (no-event) sentinel. -/
inductive StoredMessage where
  | storedCreateJob (commit : DefaultLogFields)
  | storedMarkJobAsDone (commit : DefaultLogFields)
  | storedNull
deriving DecidableEq, Repr

/-- Modelled from the spec: the null message, "queue has no events yet". -/
def nullMessage : StoredMessage := .storedNull

/-- Whether a stored message is the null sentinel. -/
def StoredMessage.isEmpty : StoredMessage → Bool
  | .storedNull => true
  | _ => false

/-- Modelled from the spec: the commit identifier of an event; the null
message answers a sentinel value instead of raising. -/
def StoredMessage.commitHash : StoredMessage → JSString
  | .storedCreateJob c => c.hash
  | .storedMarkJobAsDone c => c.hash
  | .storedNull => jsStr "--no-commit-hash--"

/-- Modelled from the spec: the job payload of an event is the commit body
with surrounding whitespace trimmed; the null message answers a sentinel
value instead of raising. -/
def StoredMessage.payload : StoredMessage → JSString
  | .storedCreateJob c => strTrim c.body
  | .storedMarkJobAsDone c => strTrim c.body
  | .storedNull => jsStr "--no-payload--"

/-- Modelled from the spec: `messageFactoryFromCommit` of `stored-message.ts`
(not under `src/`): classify a commit by which known subject prefix it
starts with; a commit matching neither prefix raises the
UnrecognizedEvent (invalid queue message) error. -/
def messageFactoryFromCommit (commit : DefaultLogFields) : Except QueueError StoredMessage :=
  if strStartsWith commit.message CREATE_JOB_SUBJECT_PREFIX then
    .ok (.storedCreateJob commit)
  else if strStartsWith commit.message MARK_JOB_AS_DONE_SUBJECT_PREFIX then
    .ok (.storedMarkJobAsDone commit)
  else
    .error (.unrecognizedEvent commit.hash)

/-- `commits.map(commit => messageFactoryFromCommit(commit))` where the
factory can throw: the traversal stops at the first failing commit. -/
def mapFactory : List DefaultLogFields → Except QueueError (List StoredMessage)
  | [] => .ok []
  | c :: rest =>
    match messageFactoryFromCommit c with
    | .error e => .error e
    | .ok m =>
      match mapFactory rest with
      | .error e => .error e
      | .ok ms => .ok (m :: ms)

/-- The `CommitOptions` class of `commit-options.ts`: a `CommitAuthor`, a
`SigningKeyId` and the no-gpg-sign flag.  The two wrapper classes (whose
own files are not under `src/`) each wrap one string whose emptiness means
"absent" — `emptySigningKeyId()` is `new SigningKeyId('')` — so they are
embedded as the wrapped string. -/
structure CommitOptions where
  author : JSString
  gpgSig : JSString
  noGpgSig : Bool
deriving DecidableEq, Repr

/-- The option record `forSimpleGit` hands to `simple-git`'s `commit`:
`--allow-empty` (always), an optional `--author`, an optional
`--gpg-sign=<key>`, and the `--no-gpg-sign` flag. -/
structure SimpleGitCommitOptions where
  allowEmpty : Bool
  author : Option JSString
  gpgSign : Option JSString
  noGpgSign : Bool
deriving DecidableEq, Repr

/-- `CommitOptions.forSimpleGit`: always `--allow-empty`; spreads
`--author` (in double quotes) when the author is non-empty, `--gpg-sign`
when the signing key is non-empty, and `--no-gpg-sign` when the flag is
set — three independent conditions, not an if/else chain. -/
def CommitOptions.forSimpleGit (o : CommitOptions) : SimpleGitCommitOptions :=
  { allowEmpty := true
    author := if o.author.isEmpty then none else some (jsStr "\"" ++ o.author ++ jsStr "\"")
    gpgSign := if o.gpgSig.isEmpty then none else some o.gpgSig
    noGpgSign := o.noGpgSig }

/-- The commit value returned by the writer operations. -/
structure Commit where
  hash : JSString
deriving DecidableEq, Repr

deriving instance DecidableEq for Except

/-- The observable state of the `simple-git` collaborator: whether the
target is a repository, the current branch name, the `log()` outcome (a
commit list, most recent first, or an error carrying its message string),
whether a remote is configured, and whether a push would be rejected. -/
structure GitState where
  isRepo : Bool
  currentBranch : JSString
  log : Except JSString (List DefaultLogFields)
  hasRemote : Bool
  pushRejects : Bool
  nextHashId : Nat
deriving DecidableEq

/-- The commits of the log, empty when `log()` fails. -/
def GitState.logCommits (g : GitState) : List DefaultLogFields :=
  match g.log with
  | .ok l => l
  | .error _ => []

/-- Deterministic fresh commit identifier produced by the collaborator. -/
def freshCommitHash (n : Nat) : JSString := jsStr ("commit-" ++ toString n)

/-- The log entry created by `git.commit(message, opts)`: the first `-m`
paragraph is the subject, the rest form the body. -/
def commitEntry (g : GitState) (message : List JSString) : DefaultLogFields :=
  { hash := freshCommitHash g.nextHashId
    message := message.headD []
    body := List.intercalate (jsStr "\n\n") (message.drop 1) }

/-- The collaborator state after `git.commit`: the new entry is prepended to
the log and a fresh identifier is consumed. -/
def GitState.afterCommit (g : GitState) (message : List JSString) : GitState :=
  { g with log := .ok (commitEntry g message :: g.logCommits)
           nextHashId := g.nextHashId + 1 }

/-- `git.commit(message, opts)`: returns the updated collaborator state and
the `{commit}` result naming the new commit's hash. -/
def GitState.doCommit (g : GitState) (message : List JSString)
    (_opts : SimpleGitCommitOptions) : GitState × Commit :=
  (g.afterCommit message, ⟨(commitEntry g message).hash⟩)

/-- The outcome `git.push()` would deliver if it were awaited: a rejection
(concurrent writer advanced the remote) or success. -/
def GitState.pushResult (g : GitState) : Except QueueError Unit :=
  if g.pushRejects then .error .publishRejected else .ok ()

/-- The error message `git log` produces on a branch with no commits yet. -/
def noCommitsFatalMessage (branch : JSString) : JSString :=
  jsStr "fatal: your current branch '" ++ branch ++ jsStr "' does not have any commits yet"

/-- The `Queue` class: name, repo directory, git collaborator and the loaded
message sequence (most recent first). -/
structure Queue where
  name : JSString
  gitRepoDir : JSString
  git : GitState
  storedMessages : List StoredMessage
deriving DecidableEq

/-- `commitBelongsToQueue`: `commit.message.endsWith(this.name) ? true : false`. -/
def Queue.commitBelongsToQueue (q : Queue) (commit : DefaultLogFields) : Bool :=
  if strEndsWith commit.message q.name then true else false

/-- `loadMessagesFromGit`: check the directory is a repository, read the
log, filter the commits belonging to this queue and map them to stored
messages; the branch-has-no-commits-yet log error is treated as success
(the message sequence is left as it was), every other log error is
rethrown. -/
def Queue.loadMessagesFromGit (q : Queue) : Except QueueError Queue :=
  if q.git.isRepo = false then
    .error (.notARepository q.gitRepoDir)
  else
    match q.git.log with
    | .ok commits =>
      match mapFactory (commits.filter (fun c => q.commitBelongsToQueue c)) with
      | .ok msgs => .ok { q with storedMessages := msgs }
      | .error e => .error e
    | .error msg =>
      if strIncludes msg (noCommitsFatalMessage q.git.currentBranch) then .ok q
      else .error (.logError msg)

/-- `Queue.create`: construct the object with an empty message sequence and
load the messages from git. -/
def Queue.create (name gitRepoDir : JSString) (git : GitState) : Except QueueError Queue :=
  Queue.loadMessagesFromGit { name := name, gitRepoDir := gitRepoDir, git := git, storedMessages := [] }

/-- `getMessages`. -/
def Queue.getMessages (q : Queue) : List StoredMessage := q.storedMessages

/-- `isEmpty`: `storedMessages.length == 0`. -/
def Queue.isEmpty (q : Queue) : Bool := q.storedMessages.length == 0

/-- `getLatestMessage`: `isEmpty() ? nullMessage() : storedMessages[0]`. -/
def Queue.getLatestMessage (q : Queue) : StoredMessage :=
  if q.isEmpty then nullMessage else q.storedMessages.headD nullMessage

/-- `getNextJob`: the latest message when it is a create-job message,
otherwise the null message. -/
def Queue.getNextJob (q : Queue) : StoredMessage :=
  match q.getLatestMessage with
  | .storedCreateJob c => .storedCreateJob c
  | _ => nullMessage

/-- `guardThatThereIsNoPendingJobs`: throw when the next job is non-empty,
naming the blocking commit's hash. -/
def Queue.guardThatThereIsNoPendingJobs (q : Queue) : Except QueueError Unit :=
  if !(q.getNextJob).isEmpty then
    .error (.jobAlreadyPending (q.getNextJob).commitHash)
  else
    .ok ()

/-- `guardThatThereIsAPendingJob`: throw when the next job is empty. -/
def Queue.guardThatThereIsAPendingJob (q : Queue) : Except QueueError Unit :=
  if (q.getNextJob).isEmpty then
    .error .noPendingJob
  else
    .ok ()

/-- The two in-memory message kinds handed to the writer. -/
inductive Message where
  | createJob (payload : JSString)
  | markJobAsDone (payload : JSString)
deriving DecidableEq, Repr

/-- `Message.getPayload`. -/
def Message.getPayload : Message → JSString
  | .createJob p => p
  | .markJobAsDone p => p

/-- `buildCommitMessage`: the subject is the queue-scoped claim or release
subject, the body is the payload; handed to `git.commit` as
`[subject, body]`. -/
def Queue.buildCommitMessage (q : Queue) (message : Message) : List JSString :=
  let commitSubject : JSString :=
    match message with
    | .createJob _ => CREATE_JOB_SUBJECT_PREFIX ++ q.name
    | .markJobAsDone _ => MARK_JOB_AS_DONE_SUBJECT_PREFIX ++ q.name
  let commitBody := message.getPayload
  [commitSubject, commitBody]

/-- `commit`: run `git.commit` with the options translated by
`forSimpleGit`, then reload the messages; a reload failure is thrown after
the commit has already mutated the repository. -/
def Queue.commit (q : Queue) (message : List JSString) (commitOptions : CommitOptions) :
    Queue × Except QueueError Commit :=
  let (g2, commitResult) := q.git.doCommit message commitOptions.forSimpleGit
  let q2 : Queue := { q with git := g2 }
  match q2.loadMessagesFromGit with
  | .ok q3 => (q3, .ok commitResult)
  | .error e => (q2, .error e)

/-- `push`: when a remote is configured, `this.git.push()` is started but
not awaited, so its outcome — `GitState.pushResult`, including a rejected
push — is discarded and the method itself always finishes successfully. -/
def Queue.push (q : Queue) : Unit :=
  if q.git.hasRemote then
    let _ := q.git.pushResult
    ()
  else ()

/-- `commitAndPush`: commit, then fire `push` (whose discarded outcome never
reaches the caller), and return the commit. -/
def Queue.commitAndPush (q : Queue) (message : List JSString) (commitOptions : CommitOptions) :
    Queue × Except QueueError Commit :=
  match q.commit message commitOptions with
  | (q2, .ok c) =>
    let _ := q2.push
    (q2, .ok c)
  | (q2, .error e) => (q2, .error e)

/-- `commitMessage`: build the commit message for this queue and
commit-and-push it. -/
def Queue.commitMessage (q : Queue) (message : Message) (commitOptions : CommitOptions) :
    Queue × Except QueueError Commit :=
  q.commitAndPush (q.buildCommitMessage message) commitOptions

/-- `createJob`: guard that no job is pending (throwing before any
mutation), then record a create-job message. -/
def Queue.createJob (q : Queue) (payload : JSString) (commitOptions : CommitOptions) :
    Queue × Except QueueError Commit :=
  match q.guardThatThereIsNoPendingJobs with
  | .error e => (q, .error e)
  | .ok _ => q.commitMessage (.createJob payload) commitOptions

/-- `markJobAsDone`: guard that a job is pending (throwing before any
mutation), then record a mark-job-as-done message. -/
def Queue.markJobAsDone (q : Queue) (payload : JSString) (commitOptions : CommitOptions) :
    Queue × Except QueueError Commit :=
  match q.guardThatThereIsAPendingJob with
  | .error e => (q, .error e)
  | .ok _ => q.commitMessage (.markJobAsDone payload) commitOptions


/-! ### Basic facts about the embedded string operations -/

/-- Any extension of a string on the left keeps it as a suffix. -/
theorem strEndsWith_append (p s : JSString) : strEndsWith (p ++ s) s = true := by
  simp [strEndsWith]

/-- A string prefixed to anything is a prefix of the result. -/
theorem strStartsWith_append (p s : JSString) : strStartsWith (p ++ s) p = true := by
  simp [strStartsWith]

/-- Strings with different head characters are not prefixes of one another. -/
theorem strStartsWith_ne_head (c1 c2 : Char) (t1 t2 : JSString) (h : c1 ≠ c2) :
    strStartsWith (c1 :: t1) (c2 :: t2) = false := by
  simp [strStartsWith, List.isPrefixOf]
  intro hc
  exact absurd hc.symm h

/-- A release subject never starts with the claim prefix, whatever the
queue name: the two prefix literals differ at their first character. -/
theorem release_not_claim_start (name : JSString) :
    strStartsWith (MARK_JOB_AS_DONE_SUBJECT_PREFIX ++ name) CREATE_JOB_SUBJECT_PREFIX = false := by
  show strStartsWith ('R' :: (jsStr "ELEASE LOCK: JOB DONE: " ++ name)) ('C' :: jsStr "LAIM LOCK: JOB: ") = false
  exact strStartsWith_ne_head _ _ _ _ (by decide)

/-! ### The commit entry produced by a writer operation -/

/-- The queue-scoped lock-claim subject. -/
def claimSubject (name : JSString) : JSString := CREATE_JOB_SUBJECT_PREFIX ++ name

/-- The queue-scoped lock-release subject. -/
def releaseSubject (name : JSString) : JSString := MARK_JOB_AS_DONE_SUBJECT_PREFIX ++ name

/-- A two-paragraph commit message becomes subject plus body. -/
theorem commitEntry_pair (g : GitState) (s b : JSString) :
    commitEntry g [s, b] = { hash := freshCommitHash g.nextHashId, message := s, body := b } := by
  simp [commitEntry, List.intercalate]

/-- The log entry a `createJob` on `q` appends. -/
def claimEntryOf (q : Queue) (payload : JSString) : DefaultLogFields :=
  commitEntry q.git [claimSubject q.name, payload]

/-- The log entry a `markJobAsDone` on `q` appends. -/
def releaseEntryOf (q : Queue) (payload : JSString) : DefaultLogFields :=
  commitEntry q.git [releaseSubject q.name, payload]

/-- The message factory classifies a fresh claim entry as a create-job
message. -/
theorem factory_claimEntry (q : Queue) (payload : JSString) :
    messageFactoryFromCommit (claimEntryOf q payload) = .ok (.storedCreateJob (claimEntryOf q payload)) := by
  simp [claimEntryOf, messageFactoryFromCommit, commitEntry_pair, claimSubject, strStartsWith_append]

/-- The message factory classifies a fresh release entry as a
mark-job-as-done message. -/
theorem factory_releaseEntry (q : Queue) (payload : JSString) :
    messageFactoryFromCommit (releaseEntryOf q payload) = .ok (.storedMarkJobAsDone (releaseEntryOf q payload)) := by
  simp [releaseEntryOf, messageFactoryFromCommit, commitEntry_pair, releaseSubject,
    release_not_claim_start, strStartsWith_append]

/-- A fresh claim entry belongs to its own queue. -/
theorem belongs_claimEntry (q : Queue) (payload : JSString) :
    q.commitBelongsToQueue (claimEntryOf q payload) = true := by
  simp [claimEntryOf, Queue.commitBelongsToQueue, commitEntry_pair, claimSubject, strEndsWith_append]

/-- A fresh release entry belongs to its own queue. -/
theorem belongs_releaseEntry (q : Queue) (payload : JSString) :
    q.commitBelongsToQueue (releaseEntryOf q payload) = true := by
  simp [releaseEntryOf, Queue.commitBelongsToQueue, commitEntry_pair, releaseSubject, strEndsWith_append]

/-! ### Derived queries -/

/-- `getNextJob` depends only on the stored message sequence. -/
theorem getNextJob_congr (q q' : Queue) (h : q.storedMessages = q'.storedMessages) :
    q.getNextJob = q'.getNextJob := by
  simp [Queue.getNextJob, Queue.getLatestMessage, Queue.isEmpty, h]

/-- When the latest message is a create-job message, `getNextJob` is it. -/
theorem getNextJob_cons_create (q : Queue) (e : DefaultLogFields) (rest : List StoredMessage)
    (h : q.storedMessages = .storedCreateJob e :: rest) :
    q.getNextJob = .storedCreateJob e := by
  simp [Queue.getNextJob, Queue.getLatestMessage, Queue.isEmpty, h]

/-- When the latest message is a mark-job-as-done message, `getNextJob` is
the null message. -/
theorem getNextJob_cons_release (q : Queue) (e : DefaultLogFields) (rest : List StoredMessage)
    (h : q.storedMessages = .storedMarkJobAsDone e :: rest) :
    q.getNextJob = nullMessage := by
  simp [Queue.getNextJob, Queue.getLatestMessage, Queue.isEmpty, h, nullMessage]

/-- With no messages, `getNextJob` is the null message. -/
theorem getNextJob_nil (q : Queue) (h : q.storedMessages = []) :
    q.getNextJob = nullMessage := by
  simp [Queue.getNextJob, Queue.getLatestMessage, Queue.isEmpty, h, nullMessage]

/-! ### Consistency of a loaded queue -/

/-- A queue is loaded when the directory is a repository and its stored
messages are exactly the parse of the filtered log. -/
def Queue.loaded (q : Queue) : Prop :=
  q.git.isRepo = true ∧
  mapFactory (q.git.logCommits.filter (fun cc => q.commitBelongsToQueue cc)) = .ok q.storedMessages

/-- A successfully created queue keeps its construction arguments and is
loaded. -/
theorem create_ok (name dir : JSString) (g : GitState) (q : Queue)
    (h : Queue.create name dir g = .ok q) :
    q.name = name ∧ q.gitRepoDir = dir ∧ q.git = g ∧ q.loaded := by
  unfold Queue.create Queue.loadMessagesFromGit at h
  by_cases hrepo : g.isRepo = true
  · simp [hrepo] at h
    cases hlog : g.log with
    | ok commits =>
      rw [hlog] at h
      cases hmap : mapFactory (commits.filter
          (fun c => ({ name := name, gitRepoDir := dir, git := g, storedMessages := [] } : Queue).commitBelongsToQueue c)) with
      | error e => simp [hmap] at h
      | ok msgs =>
        simp [hmap] at h
        refine ⟨by rw [← h], by rw [← h], by rw [← h], ?_, ?_⟩
        · rw [← h]; exact hrepo
        · rw [← h]
          simp only [Queue.commitBelongsToQueue] at hmap ⊢
          simpa [GitState.logCommits, hlog] using hmap
    | error msg =>
      rw [hlog] at h
      by_cases hinc : strIncludes msg (noCommitsFatalMessage g.currentBranch) = true
      · simp [hinc] at h
        refine ⟨by rw [← h], by rw [← h], by rw [← h], ?_, ?_⟩
        · rw [← h]; exact hrepo
        · rw [← h]
          simp [GitState.logCommits, hlog, mapFactory]
      · simp at hinc
        simp [hinc] at h
  · simp at hrepo
    simp [hrepo] at h

/-! ### The write path -/

/-- Successful path of `commitMessage`: with the next entry classified and
belonging to the queue, and the old filtered log parsing to `msgs`, the
operation commits the entry, reloads, and returns the fresh hash. -/
theorem commitMessage_ok_spec (q : Queue) (m : Message) (opts : CommitOptions)
    (msgs : List StoredMessage) (sm : StoredMessage)
    (hrepo : q.git.isRepo = true)
    (hfac : messageFactoryFromCommit (commitEntry q.git (q.buildCommitMessage m)) = .ok sm)
    (hbel : q.commitBelongsToQueue (commitEntry q.git (q.buildCommitMessage m)) = true)
    (hmap : mapFactory (q.git.logCommits.filter (fun c => q.commitBelongsToQueue c)) = .ok msgs) :
    q.commitMessage m opts =
      ({ q with git := q.git.afterCommit (q.buildCommitMessage m),
                storedMessages := sm :: msgs },
       .ok ⟨freshCommitHash q.git.nextHashId⟩) := by
  have hload : ({ q with git := q.git.afterCommit (q.buildCommitMessage m) } : Queue).loadMessagesFromGit
      = .ok ({ q with git := q.git.afterCommit (q.buildCommitMessage m), storedMessages := sm :: msgs }) := by
    unfold Queue.loadMessagesFromGit
    simp only [GitState.afterCommit, hrepo]
    simp only [Queue.commitBelongsToQueue] at hbel hmap ⊢
    simp at hbel hmap
    simp [List.filter_cons, hbel, mapFactory, hfac, hmap]
  unfold Queue.commitMessage Queue.commitAndPush Queue.commit GitState.doCommit
  simp [hload, commitEntry]

/-- Decomposition of a successful `commitMessage`. -/
theorem commitMessage_ok_inv (q : Queue) (m : Message) (opts : CommitOptions) (q' : Queue) (c : Commit)
    (h : q.commitMessage m opts = (q', .ok c)) :
    q.git.isRepo = true ∧
    q'.name = q.name ∧ q'.gitRepoDir = q.gitRepoDir ∧
    q'.git = q.git.afterCommit (q.buildCommitMessage m) ∧
    c = ⟨freshCommitHash q.git.nextHashId⟩ ∧
    mapFactory ((commitEntry q.git (q.buildCommitMessage m) :: q.git.logCommits).filter
      (fun cc => q.commitBelongsToQueue cc)) = .ok q'.storedMessages := by
  unfold Queue.commitMessage Queue.commitAndPush Queue.commit GitState.doCommit at h
  cases hload : ({ q with git := q.git.afterCommit (q.buildCommitMessage m) } : Queue).loadMessagesFromGit with
  | error e =>
    simp at h
    rw [hload] at h
    simp at h
  | ok q3 =>
    simp at h
    rw [hload] at h
    simp at h
    obtain ⟨hq3, hc⟩ := h
    unfold Queue.loadMessagesFromGit at hload
    by_cases hrepo : q.git.isRepo = true
    · simp only [GitState.afterCommit, hrepo] at hload
      simp only [Queue.commitBelongsToQueue] at hload
      simp at hload
      cases hmap : mapFactory ((commitEntry q.git (q.buildCommitMessage m) :: q.git.logCommits).filter
          (fun cc => strEndsWith cc.message q.name)) with
      | error e =>
        rw [hmap] at hload
        simp at hload
      | ok msgs =>
        rw [hmap] at hload
        simp at hload
        refine ⟨hrepo, ?_, ?_, ?_, ?_, ?_⟩
        · rw [← hq3, ← hload]
        · rw [← hq3, ← hload]
        · rw [← hq3, ← hload]
          simp [GitState.afterCommit, hrepo]
        · rw [← hc]
          simp [commitEntry]
        · simp only [Queue.commitBelongsToQueue]
          simp
          rw [hmap, ← hq3, ← hload]
    · simp at hrepo
      simp [GitState.afterCommit, hrepo] at hload

/-- The queue-name filter depends only on the queue's name. -/
theorem commitBelongsToQueue_congr (q q' : Queue) (hname : q'.name = q.name) :
    (fun cc => q'.commitBelongsToQueue cc) = (fun cc => q.commitBelongsToQueue cc) := by
  funext cc
  simp [Queue.commitBelongsToQueue, hname]

/-- A `createJob` whose guard sees a pending job fails with the
JobAlreadyPending error naming the blocking commit, leaving the queue
untouched. -/
theorem createJob_guard_fail (q : Queue) (payload : JSString) (opts : CommitOptions)
    (hg : (q.getNextJob).isEmpty = false) :
    q.createJob payload opts = (q, .error (.jobAlreadyPending (q.getNextJob).commitHash)) := by
  unfold Queue.createJob Queue.guardThatThereIsNoPendingJobs
  simp [hg]

/-- A `markJobAsDone` whose guard sees no pending job fails with the
NoPendingJob error, leaving the queue untouched. -/
theorem markJobAsDone_guard_fail (q : Queue) (payload : JSString) (opts : CommitOptions)
    (hg : (q.getNextJob).isEmpty = true) :
    q.markJobAsDone payload opts = (q, .error .noPendingJob) := by
  unfold Queue.markJobAsDone Queue.guardThatThereIsAPendingJob
  simp [hg]

/-- Successful `createJob` on a loaded queue with no pending job: the claim
entry is committed, the queue reloads with it in front, and the fresh hash
is returned. -/
theorem createJob_ok_spec (q : Queue) (payload : JSString) (opts : CommitOptions)
    (hl : q.loaded) (hguard : (q.getNextJob).isEmpty = true) :
    q.createJob payload opts =
      ({ q with git := q.git.afterCommit [claimSubject q.name, payload],
                storedMessages := .storedCreateJob (claimEntryOf q payload) :: q.storedMessages },
       .ok ⟨freshCommitHash q.git.nextHashId⟩) := by
  obtain ⟨hrepo, hmap⟩ := hl
  unfold Queue.createJob Queue.guardThatThereIsNoPendingJobs
  simp [hguard]
  exact commitMessage_ok_spec q (.createJob payload) opts q.storedMessages
    (.storedCreateJob (claimEntryOf q payload)) hrepo (factory_claimEntry q payload)
    (belongs_claimEntry q payload) hmap

/-- Successful `markJobAsDone` on a loaded queue with a pending job: the
release entry is committed, the queue reloads with it in front, and the
fresh hash is returned. -/
theorem markJobAsDone_ok_spec (q : Queue) (payload : JSString) (opts : CommitOptions)
    (hl : q.loaded) (hguard : (q.getNextJob).isEmpty = false) :
    q.markJobAsDone payload opts =
      ({ q with git := q.git.afterCommit [releaseSubject q.name, payload],
                storedMessages := .storedMarkJobAsDone (releaseEntryOf q payload) :: q.storedMessages },
       .ok ⟨freshCommitHash q.git.nextHashId⟩) := by
  obtain ⟨hrepo, hmap⟩ := hl
  unfold Queue.markJobAsDone Queue.guardThatThereIsAPendingJob
  simp [hguard]
  exact commitMessage_ok_spec q (.markJobAsDone payload) opts q.storedMessages
    (.storedMarkJobAsDone (releaseEntryOf q payload)) hrepo (factory_releaseEntry q payload)
    (belongs_releaseEntry q payload) hmap

/-- Decomposition of a successful `createJob`: the guard saw no pending
job, the repository gained the claim entry at the tip, the returned hash is
the fresh one, and the reloaded queue has the claim message in front and is
loaded. -/
theorem mapFactory_cons_claim (q : Queue) (payload : JSString) (rest : List DefaultLogFields) :
    mapFactory (claimEntryOf q payload :: rest)
      = match mapFactory rest with
        | .error e => .error e
        | .ok ms => .ok (.storedCreateJob (claimEntryOf q payload) :: ms) := by
  simp [mapFactory, factory_claimEntry]

theorem mapFactory_cons_release (q : Queue) (payload : JSString) (rest : List DefaultLogFields) :
    mapFactory (releaseEntryOf q payload :: rest)
      = match mapFactory rest with
        | .error e => .error e
        | .ok ms => .ok (.storedMarkJobAsDone (releaseEntryOf q payload) :: ms) := by
  simp [mapFactory, factory_releaseEntry]

theorem filter_cons_claim (q : Queue) (payload : JSString) (l : List DefaultLogFields) :
    (claimEntryOf q payload :: l).filter (fun cc => q.commitBelongsToQueue cc)
      = claimEntryOf q payload :: l.filter (fun cc => q.commitBelongsToQueue cc) := by
  simp [List.filter_cons, belongs_claimEntry]

theorem filter_cons_release (q : Queue) (payload : JSString) (l : List DefaultLogFields) :
    (releaseEntryOf q payload :: l).filter (fun cc => q.commitBelongsToQueue cc)
      = releaseEntryOf q payload :: l.filter (fun cc => q.commitBelongsToQueue cc) := by
  simp [List.filter_cons, belongs_releaseEntry]

theorem afterCommit_logCommits (g : GitState) (msg : List JSString) :
    (g.afterCommit msg).logCommits = commitEntry g msg :: g.logCommits := by
  simp [GitState.afterCommit, GitState.logCommits]

/-- Decomposition of a successful `createJob`: the guard saw no pending
job, the repository gained the claim entry at the tip, the returned hash is
the fresh one, and the reloaded queue has the claim message in front and is
loaded. -/
theorem createJob_ok_inv (q : Queue) (payload : JSString) (opts : CommitOptions) (q' : Queue) (c : Commit)
    (h : q.createJob payload opts = (q', .ok c)) :
    (q.getNextJob).isEmpty = true ∧
    q.git.isRepo = true ∧
    q'.name = q.name ∧ q'.gitRepoDir = q.gitRepoDir ∧
    q'.git = q.git.afterCommit [claimSubject q.name, payload] ∧
    c = ⟨freshCommitHash q.git.nextHashId⟩ ∧
    (∃ ms, q'.storedMessages = .storedCreateJob (claimEntryOf q payload) :: ms) ∧
    q'.loaded := by
  unfold Queue.createJob at h
  by_cases hg : (q.getNextJob).isEmpty = true
  · have hguard : q.guardThatThereIsNoPendingJobs = .ok () := by
      unfold Queue.guardThatThereIsNoPendingJobs
      simp [hg]
    rw [hguard] at h
    obtain ⟨hrepo, hname, hdir, hgit, hc, hmapf⟩ := commitMessage_ok_inv q _ opts q' c h
    rw [show commitEntry q.git (q.buildCommitMessage (.createJob payload)) = claimEntryOf q payload from rfl]
      at hmapf
    rw [filter_cons_claim, mapFactory_cons_claim] at hmapf
    cases hrest : mapFactory (q.git.logCommits.filter (fun cc => q.commitBelongsToQueue cc)) with
    | error e =>
      rw [hrest] at hmapf
      simp at hmapf
    | ok ms =>
      rw [hrest] at hmapf
      simp at hmapf
      refine ⟨hg, hrepo, hname, hdir, hgit, hc, ⟨ms, hmapf.symm⟩, ?_, ?_⟩
      · rw [hgit]
        simpa [GitState.afterCommit] using hrepo
      · rw [commitBelongsToQueue_congr q q' hname, hgit, afterCommit_logCommits]
        rw [show commitEntry q.git (q.buildCommitMessage (Message.createJob payload)) = claimEntryOf q payload from rfl]
        rw [filter_cons_claim, mapFactory_cons_claim, hrest]
        simp [hmapf]
  · have hguard : q.guardThatThereIsNoPendingJobs
        = .error (.jobAlreadyPending (q.getNextJob).commitHash) := by
      unfold Queue.guardThatThereIsNoPendingJobs
      simp at hg
      simp [hg]
    rw [hguard] at h
    simp at h

/-- Decomposition of a successful `markJobAsDone`: the guard saw a pending
job, the repository gained the release entry at the tip, the returned hash
is the fresh one, and the reloaded queue has the release message in front
and is loaded. -/
theorem markJobAsDone_ok_inv (q : Queue) (payload : JSString) (opts : CommitOptions) (q' : Queue) (c : Commit)
    (h : q.markJobAsDone payload opts = (q', .ok c)) :
    (q.getNextJob).isEmpty = false ∧
    q.git.isRepo = true ∧
    q'.name = q.name ∧ q'.gitRepoDir = q.gitRepoDir ∧
    q'.git = q.git.afterCommit [releaseSubject q.name, payload] ∧
    c = ⟨freshCommitHash q.git.nextHashId⟩ ∧
    (∃ ms, q'.storedMessages = .storedMarkJobAsDone (releaseEntryOf q payload) :: ms) ∧
    q'.loaded := by
  unfold Queue.markJobAsDone at h
  by_cases hg : (q.getNextJob).isEmpty = false
  · have hguard : q.guardThatThereIsAPendingJob = .ok () := by
      unfold Queue.guardThatThereIsAPendingJob
      simp [hg]
    rw [hguard] at h
    obtain ⟨hrepo, hname, hdir, hgit, hc, hmapf⟩ := commitMessage_ok_inv q _ opts q' c h
    rw [show commitEntry q.git (q.buildCommitMessage (.markJobAsDone payload)) = releaseEntryOf q payload from rfl]
      at hmapf
    rw [filter_cons_release, mapFactory_cons_release] at hmapf
    cases hrest : mapFactory (q.git.logCommits.filter (fun cc => q.commitBelongsToQueue cc)) with
    | error e =>
      rw [hrest] at hmapf
      simp at hmapf
    | ok ms =>
      rw [hrest] at hmapf
      simp at hmapf
      refine ⟨hg, hrepo, hname, hdir, hgit, hc, ⟨ms, hmapf.symm⟩, ?_, ?_⟩
      · rw [hgit]
        simpa [GitState.afterCommit] using hrepo
      · rw [commitBelongsToQueue_congr q q' hname, hgit, afterCommit_logCommits]
        rw [show commitEntry q.git (q.buildCommitMessage (Message.markJobAsDone payload)) = releaseEntryOf q payload from rfl]
        rw [filter_cons_release, mapFactory_cons_release, hrest]
        simp [hmapf]
  · have hguard : q.guardThatThereIsAPendingJob = .error .noPendingJob := by
      unfold Queue.guardThatThereIsAPendingJob
      simp at hg
      simp [hg]
    rw [hguard] at h
    simp at h

/-! ### Claim theorems -/

/-- C4: whenever the derived pending job is non-empty, `createJob` fails
with a JobAlreadyPending error naming the blocking commit's identifier,
for every payload; in particular a second `createJob` right after a
successful one (before `markJobAsDone`) always fails this way, naming the
commit the first call returned. -/
theorem c4_job_already_pending (q q1 : Queue) (payload p1 p2 : JSString)
    (opts o1 o2 : CommitOptions) (c1 : Commit) :
    ((q.getNextJob).isEmpty = false →
      q.createJob payload opts = (q, .error (.jobAlreadyPending (q.getNextJob).commitHash))) ∧
    (q.createJob p1 o1 = (q1, .ok c1) →
      q1.createJob p2 o2 = (q1, .error (.jobAlreadyPending c1.hash))) := by
  constructor
  · intro hg
    exact createJob_guard_fail q payload opts hg
  · intro h1
    obtain ⟨_, _, _, _, _, hc, ⟨ms, hmsgs⟩, _⟩ := createJob_ok_inv q p1 o1 q1 c1 h1
    have hnext : q1.getNextJob = .storedCreateJob (claimEntryOf q p1) :=
      getNextJob_cons_create q1 _ ms hmsgs
    have hg : (q1.getNextJob).isEmpty = false := by
      rw [hnext]
      rfl
    have := createJob_guard_fail q1 p2 o2 hg
    rw [hnext] at this
    rw [this, hc]
    rfl

/-- C5: with no derived pending job, `markJobAsDone` fails with the
NoPendingJob error for every payload; a successful `markJobAsDone` implies
a pending job existed, and it records at the branch tip a lock-release
event whose subject is the release subject for this queue's name. -/
theorem c5_no_pending_job (q q' : Queue) (payload : JSString) (opts : CommitOptions) (c : Commit) :
    ((q.getNextJob).isEmpty = true →
      q.markJobAsDone payload opts = (q, .error .noPendingJob)) ∧
    (q.markJobAsDone payload opts = (q', .ok c) →
      (q.getNextJob).isEmpty = false ∧
      q'.git.log = .ok (releaseEntryOf q payload :: q.git.logCommits) ∧
      (releaseEntryOf q payload).message = MARK_JOB_AS_DONE_SUBJECT_PREFIX ++ q.name) := by
  constructor
  · intro hg
    exact markJobAsDone_guard_fail q payload opts hg
  · intro h
    obtain ⟨hg, _, _, _, hgit, _, _, _⟩ := markJobAsDone_ok_inv q payload opts q' c h
    refine ⟨hg, ?_, ?_⟩
    · rw [hgit]
      simp [GitState.afterCommit]
      rfl
    · simp [releaseEntryOf, commitEntry_pair, releaseSubject]

/-- C10: when a guard rejects an operation (`createJob` with a pending job,
`markJobAsDone` without one), the operation performs no commit and no push:
it returns the very queue it was called on — same git state (branch tip)
and same loaded message sequence — together with the guard's error. -/
theorem c10_guard_atomicity (q : Queue) (payload : JSString) (opts : CommitOptions) :
    ((q.getNextJob).isEmpty = false →
      (q.createJob payload opts).1 = q ∧
      (q.createJob payload opts).2 = .error (.jobAlreadyPending (q.getNextJob).commitHash)) ∧
    ((q.getNextJob).isEmpty = true →
      (q.markJobAsDone payload opts).1 = q ∧
      (q.markJobAsDone payload opts).2 = .error .noPendingJob) := by
  constructor
  · intro hg
    rw [createJob_guard_fail q payload opts hg]
    exact ⟨rfl, rfl⟩
  · intro hg
    rw [markJobAsDone_guard_fail q payload opts hg]
    exact ⟨rfl, rfl⟩

/-- C6: when `createJob` succeeds with commit `c`, `getNextJob` on the
reloaded queue immediately finds a job whose commit identifier is `c.hash`
and whose payload is the original payload with edge whitespace trimmed and
otherwise unaltered. -/
theorem c6_payload_round_trip (q q' : Queue) (payload : JSString) (opts : CommitOptions) (c : Commit)
    (h : q.createJob payload opts = (q', .ok c)) :
    (q'.getNextJob).isEmpty = false ∧
    (q'.getNextJob).commitHash = c.hash ∧
    (q'.getNextJob).payload = strTrim payload := by
  obtain ⟨_, _, _, _, _, hc, ⟨ms, hmsgs⟩, _⟩ := createJob_ok_inv q payload opts q' c h
  have hnext : q'.getNextJob = .storedCreateJob (claimEntryOf q payload) :=
    getNextJob_cons_create q' _ ms hmsgs
  rw [hnext, hc]
  refine ⟨rfl, ?_, ?_⟩
  · simp [StoredMessage.commitHash, claimEntryOf, commitEntry_pair]
  · simp [StoredMessage.payload, claimEntryOf, commitEntry_pair]

/-- C3: `getNextJob` answers the latest (first, most recent) message
exactly when that message is a create-job event and the null message
otherwise; a mark-job-as-done event at the head behaves like an empty
sequence; and after a successful `createJob` followed by a successful
`markJobAsDone` on the same queue, `getNextJob` is empty again and a
further `createJob` succeeds. -/
theorem c3_pending_job_derivation (q q1 q2 : Queue) (p1 p2 p3 : JSString)
    (o1 o2 o3 : CommitOptions) (c1 c2 : Commit) :
    ((q.getNextJob = q.getLatestMessage ∧ ∃ e, q.getLatestMessage = .storedCreateJob e) ∨
     (q.getNextJob = nullMessage ∧ ∀ e, q.getLatestMessage ≠ .storedCreateJob e)) ∧
    (∀ e rest, q.storedMessages = .storedMarkJobAsDone e :: rest → q.getNextJob = nullMessage) ∧
    (q.storedMessages = [] → q.getNextJob = nullMessage) ∧
    (q.createJob p1 o1 = (q1, .ok c1) → q1.markJobAsDone p2 o2 = (q2, .ok c2) →
      (q2.getNextJob).isEmpty = true ∧ ∃ q3 c3, q2.createJob p3 o3 = (q3, .ok c3)) := by
  refine ⟨?_, ?_, ?_, ?_⟩
  · cases hlatest : q.getLatestMessage with
    | storedCreateJob e =>
      left
      refine ⟨?_, e, rfl⟩
      simp [Queue.getNextJob, hlatest]
    | storedMarkJobAsDone e =>
      right
      refine ⟨?_, fun e2 h2 => by simp [hlatest] at h2⟩
      simp [Queue.getNextJob, hlatest]
    | storedNull =>
      right
      refine ⟨?_, fun e2 h2 => by simp [hlatest] at h2⟩
      simp [Queue.getNextJob, hlatest]
  · intro e rest hmsgs
    exact getNextJob_cons_release q e rest hmsgs
  · intro hmsgs
    exact getNextJob_nil q hmsgs
  · intro h1 h2
    obtain ⟨_, _, _, _, _, _, _, _⟩ := createJob_ok_inv q p1 o1 q1 c1 h1
    obtain ⟨_, _, _, _, _, _, ⟨ms2, hmsgs2⟩, hl2⟩ := markJobAsDone_ok_inv q1 p2 o2 q2 c2 h2
    have hnext2 : q2.getNextJob = nullMessage := getNextJob_cons_release q2 _ ms2 hmsgs2
    have hg2 : (q2.getNextJob).isEmpty = true := by
      rw [hnext2]
      rfl
    refine ⟨hg2, ?_⟩
    exact ⟨_, _, createJob_ok_spec q2 p3 o3 hl2 hg2⟩

/-- C7: constructing a queue on a directory that is not a repository fails
with the NotARepository error; when the log read fails with the
branch-has-no-commits-yet message the construction succeeds with an empty
event sequence, on which `getNextJob` finds nothing and `createJob`
succeeds; and every other log-read error propagates unchanged. -/
theorem c7_empty_repository_bootstrap (name dir : JSString) (g : GitState) :
    (g.isRepo = false → Queue.create name dir g = .error (.notARepository dir)) ∧
    (∀ msg, g.isRepo = true → g.log = .error msg →
      (strIncludes msg (noCommitsFatalMessage g.currentBranch) = true →
        Queue.create name dir g = .ok ⟨name, dir, g, []⟩ ∧
        (⟨name, dir, g, []⟩ : Queue).getNextJob = nullMessage ∧
        (∀ payload opts, ∃ q' c, (⟨name, dir, g, []⟩ : Queue).createJob payload opts = (q', .ok c))) ∧
      (strIncludes msg (noCommitsFatalMessage g.currentBranch) = false →
        Queue.create name dir g = .error (.logError msg))) := by
  constructor
  · intro hrepo
    unfold Queue.create Queue.loadMessagesFromGit
    simp [hrepo]
  · intro msg hrepo hlog
    constructor
    · intro hinc
      refine ⟨?_, ?_, ?_⟩
      · unfold Queue.create Queue.loadMessagesFromGit
        simp [hrepo, hlog, hinc]
      · exact getNextJob_nil _ rfl
      · intro payload opts
        have hloaded : (⟨name, dir, g, []⟩ : Queue).loaded := by
          refine ⟨hrepo, ?_⟩
          simp [GitState.logCommits, hlog, mapFactory]
        have hg : ((⟨name, dir, g, []⟩ : Queue).getNextJob).isEmpty = true := by
          rw [getNextJob_nil _ rfl]
          rfl
        exact ⟨_, _, createJob_ok_spec _ payload opts hloaded hg⟩
    · intro hinc
      unfold Queue.create Queue.loadMessagesFromGit
      simp [hrepo, hlog, hinc]

/-- C8 fails on the code: `forSimpleGit` spreads its signing conditions
independently, so an options value carrying a signing key reference and
the suppress flag at the same time emits both the sign-with-key and the
explicit no-sign directive — two signing directives simultaneously. -/
theorem c8_signing_counterexample :
    (⟨[], jsStr "3F39AA1432CA6AD7", true⟩ : CommitOptions).forSimpleGit.gpgSign
      = some (jsStr "3F39AA1432CA6AD7") ∧
    (⟨[], jsStr "3F39AA1432CA6AD7", true⟩ : CommitOptions).forSimpleGit.noGpgSign = true ∧
    (⟨[], jsStr "3F39AA1432CA6AD7", true⟩ : CommitOptions).forSimpleGit.gpgSign.isSome = true :=
  ⟨rfl, rfl, rfl⟩

/-- C8 amended: the sign-with-key directive is present exactly when a
signing key reference is, and the explicit no-sign directive exactly when
the suppress flag is set — the two independently.  Exactly one of the
three signing disciplines therefore holds whenever the options do not
carry both a key and the suppress flag; in that remaining case both
directives are emitted simultaneously. -/
theorem c8_signing_discipline (o : CommitOptions) :
    (o.gpgSig.isEmpty = false → o.forSimpleGit.gpgSign = some o.gpgSig) ∧
    (o.gpgSig.isEmpty = true → o.forSimpleGit.gpgSign = none) ∧
    o.forSimpleGit.noGpgSign = o.noGpgSig ∧
    (¬(o.gpgSig.isEmpty = false ∧ o.noGpgSig = true) →
      ((o.forSimpleGit.gpgSign.isSome = true ∧ o.forSimpleGit.noGpgSign = false) ∨
       (o.forSimpleGit.gpgSign = none ∧ o.forSimpleGit.noGpgSign = true) ∨
       (o.forSimpleGit.gpgSign = none ∧ o.forSimpleGit.noGpgSign = false))) ∧
    (o.gpgSig.isEmpty = false → o.noGpgSig = true →
      o.forSimpleGit.gpgSign.isSome = true ∧ o.forSimpleGit.noGpgSign = true) := by
  obtain ⟨a, k, f⟩ := o
  cases k <;> cases f <;> simp [CommitOptions.forSimpleGit]

/-- The empty commit options used by the concrete scenarios. -/
def commitOptionsNone : CommitOptions := { author := [], gpgSig := [], noGpgSig := false }

/-- A repository on branch main with an empty log, a configured remote, and
a remote that rejects pushes (a concurrent writer advanced it). -/
def c2_git : GitState :=
  { isRepo := true, currentBranch := jsStr "main", log := .ok [],
    hasRemote := true, pushRejects := true, nextHashId := 0 }

/-- The queue the C2 scenario operates on. -/
def c2_queue : Queue := ⟨jsStr "q", jsStr "dir", c2_git, []⟩

/-- C2 fails on the code: with a configured remote whose push is rejected,
`createJob` still returns the new commit successfully — the un-awaited
`git.push()` discards the PublishRejected outcome — and so does the
`markJobAsDone` that follows; the rejection the push would deliver if
awaited is visible in the collaborator state. -/
theorem c2_push_rejection_swallowed :
    (c2_queue.createJob (jsStr "p") commitOptionsNone).2 = .ok ⟨jsStr "commit-0"⟩ ∧
    (c2_queue.createJob (jsStr "p") commitOptionsNone).1.git.hasRemote = true ∧
    (c2_queue.createJob (jsStr "p") commitOptionsNone).1.git.pushResult = .error .publishRejected ∧
    ((c2_queue.createJob (jsStr "p") commitOptionsNone).1.markJobAsDone (jsStr "d") commitOptionsNone).2
      = .ok ⟨jsStr "commit-1"⟩ ∧
    ((c2_queue.createJob (jsStr "p") commitOptionsNone).1.markJobAsDone (jsStr "d") commitOptionsNone).1.git.pushResult
      = .error .publishRejected := by
  refine ⟨?_, ?_, ?_, ?_, ?_⟩ <;> rfl

/-- A repository whose log holds one ordinary commit whose subject happens
to end with the queue name `A` without carrying either queue prefix. -/
def c9_git : GitState :=
  { isRepo := true, currentBranch := jsStr "main",
    log := .ok [⟨jsStr "abc123", jsStr "A", jsStr "initial import"⟩],
    hasRemote := false, pushRejects := false, nextHashId := 0 }

/-- C9 fails on the code: the belongs-to-queue filter (`endsWith` on the
queue name) accepts a commit that carries neither known subject prefix, so
constructing its event raises the UnrecognizedEvent error and the whole
load fails with it. -/
theorem c9_unrecognized_event_reachable :
    (⟨jsStr "A", jsStr "dir", c9_git, []⟩ : Queue).commitBelongsToQueue
      ⟨jsStr "abc123", jsStr "A", jsStr "initial import"⟩ = true ∧
    messageFactoryFromCommit ⟨jsStr "abc123", jsStr "A", jsStr "initial import"⟩
      = .error (.unrecognizedEvent (jsStr "abc123")) ∧
    Queue.create (jsStr "A") (jsStr "dir") c9_git = .error (.unrecognizedEvent (jsStr "abc123")) := by
  refine ⟨?_, ?_, ?_⟩ <;> rfl

/-- A fresh repository on branch main with an empty log and no remote. -/
def c1_git0 : GitState :=
  { isRepo := true, currentBranch := jsStr "main", log := .ok [],
    hasRemote := false, pushRejects := false, nextHashId := 0 }

/-- Queue `a-queue` freshly created on the empty repository. -/
def c1_qA : Queue := ⟨jsStr "a-queue", jsStr "dir", c1_git0, []⟩

/-- Queue `queue` created on the repository after `a-queue`'s `createJob`:
it picks up `a-queue`'s commit, because the claim subject for `a-queue`
ends with the string `queue`. -/
def c1_qB : Queue :=
  ⟨jsStr "queue", jsStr "dir", (c1_qA.createJob (jsStr "payload") commitOptionsNone).1.git,
   [.storedCreateJob ⟨jsStr "commit-0", jsStr "CLAIM LOCK: JOB: a-queue", jsStr "payload"⟩]⟩

/-- C1 fails on the code: for the two distinct queue names `a-queue` and
`queue` on the same repository, a commit created by `createJob` on
`a-queue` is included in `queue`'s event sequence — the belongs-to-queue
test is a generic suffix match, not exact subject equality — so
`getNextJob` on `queue` finds `a-queue`'s commit. -/
theorem c1_isolation_counterexample :
    Queue.create (jsStr "a-queue") (jsStr "dir") c1_git0 = .ok c1_qA ∧
    (c1_qA.createJob (jsStr "payload") commitOptionsNone).2 = .ok ⟨jsStr "commit-0"⟩ ∧
    jsStr "a-queue" ≠ jsStr "queue" ∧
    Queue.create (jsStr "queue") (jsStr "dir")
      (c1_qA.createJob (jsStr "payload") commitOptionsNone).1.git = .ok c1_qB ∧
    (c1_qB.getNextJob).isEmpty = false ∧
    (c1_qB.getNextJob).commitHash = jsStr "commit-0" := by
  refine ⟨rfl, rfl, ?_, rfl, rfl, rfl⟩
  decide

/-- Creating a queue named `B` over the repository state left by another
queue's commit whose subject does not end with `B` yields exactly the
messages `B` saw before that commit. -/
theorem create_other_after_commit (B dir subj payload : JSString) (g : GitState) (qB0 : Queue)
    (hrepo : g.isRepo = true)
    (hsuffix : strEndsWith subj B = false)
    (hB0 : Queue.create B dir g = .ok qB0) :
    Queue.create B dir (g.afterCommit [subj, payload])
      = .ok ⟨B, dir, g.afterCommit [subj, payload], qB0.storedMessages⟩ := by
  obtain ⟨hn, hd, hg, hrepo0, hmap0⟩ := create_ok B dir g qB0 hB0
  have hpred : (fun cc => (⟨B, dir, g.afterCommit [subj, payload], []⟩ : Queue).commitBelongsToQueue cc)
      = (fun cc => qB0.commitBelongsToQueue cc) := by
    funext cc
    simp [Queue.commitBelongsToQueue, hn]
  unfold Queue.create Queue.loadMessagesFromGit
  have hrepo2 : (g.afterCommit [subj, payload]).isRepo = true := by
    simpa [GitState.afterCommit] using hrepo
  simp only [hrepo2]
  have hlog2 : (g.afterCommit [subj, payload]).log = .ok (commitEntry g [subj, payload] :: g.logCommits) := by
    simp [GitState.afterCommit]
  simp only [hlog2]
  have hnotbel : (⟨B, dir, g.afterCommit [subj, payload], []⟩ : Queue).commitBelongsToQueue
      (commitEntry g [subj, payload]) = false := by
    simp [Queue.commitBelongsToQueue, commitEntry_pair, hsuffix]
  rw [List.filter_cons]
  rw [hnotbel]
  simp only [Bool.false_eq_true, if_false]
  rw [hpred]
  rw [hg] at hmap0
  rw [hmap0]
  simp

/-- C1 amended: commit-to-queue matching is a suffix match of the commit
subject against the queue's own name, so isolation between two queues on
the same repository holds exactly when neither operation subject of one
queue ends with the other queue's name: under that proviso, a commit
created by `createJob` or `markJobAsDone` on queue `q` never enters queue
`B`'s event sequence, and `B`'s `getNextJob` answer is unchanged. -/
theorem c1_isolation_amended (q qA qB0 : Queue) (B dir payload : JSString)
    (opts : CommitOptions) (c : Commit)
    (hB0 : Queue.create B dir q.git = .ok qB0) :
    (q.createJob payload opts = (qA, .ok c) → strEndsWith (claimSubject q.name) B = false →
      ∃ qB, Queue.create B dir qA.git = .ok qB ∧ qB.storedMessages = qB0.storedMessages ∧
        qB.getNextJob = qB0.getNextJob) ∧
    (q.markJobAsDone payload opts = (qA, .ok c) → strEndsWith (releaseSubject q.name) B = false →
      ∃ qB, Queue.create B dir qA.git = .ok qB ∧ qB.storedMessages = qB0.storedMessages ∧
        qB.getNextJob = qB0.getNextJob) := by
  constructor
  · intro hcreate hsuffix
    obtain ⟨_, hrepo, _, _, hgit, _, _, _⟩ := createJob_ok_inv q payload opts qA c hcreate
    rw [hgit]
    refine ⟨⟨B, dir, q.git.afterCommit [claimSubject q.name, payload], qB0.storedMessages⟩,
      create_other_after_commit B dir _ payload q.git qB0 hrepo hsuffix hB0, rfl, ?_⟩
    exact getNextJob_congr _ qB0 rfl
  · intro hdone hsuffix
    obtain ⟨_, hrepo, _, _, hgit, _, _, _⟩ := markJobAsDone_ok_inv q payload opts qA c hdone
    rw [hgit]
    refine ⟨⟨B, dir, q.git.afterCommit [releaseSubject q.name, payload], qB0.storedMessages⟩,
      create_other_after_commit B dir _ payload q.git qB0 hrepo hsuffix hB0, rfl, ?_⟩
    exact getNextJob_congr _ qB0 rfl

/-! ### Concrete scenario used by the witnesses -/

/-- A fresh repository on branch main with an empty log and no remote. -/
def wit_git : GitState :=
  { isRepo := true, currentBranch := jsStr "main", log := .ok [],
    hasRemote := false, pushRejects := false, nextHashId := 0 }

/-- Queue `wq` freshly created on the empty repository. -/
def wit_q0 : Queue := ⟨jsStr "wq", jsStr "dir", wit_git, []⟩

/-- The queue after a successful `createJob` (one pending job). -/
def wit_q1 : Queue := (wit_q0.createJob (jsStr "p1") commitOptionsNone).1

/-- The queue after the pending job was marked done (slot free again). -/
def wit_q2 : Queue := (wit_q1.markJobAsDone (jsStr "p2") commitOptionsNone).1

theorem c4_witness :
    wit_q1.createJob (jsStr "x") commitOptionsNone
      = (wit_q1, .error (.jobAlreadyPending (wit_q1.getNextJob).commitHash)) ∧
    wit_q1.createJob (jsStr "p2") commitOptionsNone
      = (wit_q1, .error (.jobAlreadyPending (Commit.mk (jsStr "commit-0")).hash)) :=
  ⟨(c4_job_already_pending wit_q1 wit_q1 (jsStr "x") (jsStr "p1") (jsStr "p2")
      commitOptionsNone commitOptionsNone commitOptionsNone ⟨jsStr "commit-0"⟩).1 (by decide),
   (c4_job_already_pending wit_q0 wit_q1 (jsStr "x") (jsStr "p1") (jsStr "p2")
      commitOptionsNone commitOptionsNone commitOptionsNone ⟨jsStr "commit-0"⟩).2 (by decide)⟩

theorem c5_witness :
    wit_q0.markJobAsDone (jsStr "d") commitOptionsNone = (wit_q0, .error .noPendingJob) ∧
    ((wit_q1.getNextJob).isEmpty = false ∧
      wit_q2.git.log = .ok (releaseEntryOf wit_q1 (jsStr "p2") :: wit_q1.git.logCommits) ∧
      (releaseEntryOf wit_q1 (jsStr "p2")).message = MARK_JOB_AS_DONE_SUBJECT_PREFIX ++ wit_q1.name) :=
  ⟨(c5_no_pending_job wit_q0 wit_q0 (jsStr "d") commitOptionsNone ⟨jsStr "commit-9"⟩).1 (by decide),
   (c5_no_pending_job wit_q1 wit_q2 (jsStr "p2") commitOptionsNone ⟨jsStr "commit-1"⟩).2 (by decide)⟩

theorem c10_witness :
    ((wit_q1.createJob (jsStr "x") commitOptionsNone).1 = wit_q1 ∧
     (wit_q1.createJob (jsStr "x") commitOptionsNone).2
       = .error (.jobAlreadyPending (wit_q1.getNextJob).commitHash)) ∧
    ((wit_q0.markJobAsDone (jsStr "x") commitOptionsNone).1 = wit_q0 ∧
     (wit_q0.markJobAsDone (jsStr "x") commitOptionsNone).2 = .error .noPendingJob) :=
  ⟨(c10_guard_atomicity wit_q1 (jsStr "x") commitOptionsNone).1 (by decide),
   (c10_guard_atomicity wit_q0 (jsStr "x") commitOptionsNone).2 (by decide)⟩

theorem c6_witness :
    (wit_q1.getNextJob).isEmpty = false ∧
    (wit_q1.getNextJob).commitHash = (Commit.mk (jsStr "commit-0")).hash ∧
    (wit_q1.getNextJob).payload = strTrim (jsStr "p1") :=
  c6_payload_round_trip wit_q0 wit_q1 (jsStr "p1") commitOptionsNone ⟨jsStr "commit-0"⟩ (by decide)

theorem c3_witness :
    ((wit_q1.getNextJob = wit_q1.getLatestMessage ∧
       ∃ e, wit_q1.getLatestMessage = .storedCreateJob e) ∨
     (wit_q1.getNextJob = nullMessage ∧ ∀ e, wit_q1.getLatestMessage ≠ .storedCreateJob e)) ∧
    ((wit_q2.getNextJob).isEmpty = true ∧
     ∃ q3 c3, wit_q2.createJob (jsStr "p3") commitOptionsNone = (q3, .ok c3)) :=
  ⟨(c3_pending_job_derivation wit_q1 wit_q1 wit_q2 (jsStr "p1") (jsStr "p2") (jsStr "p3")
      commitOptionsNone commitOptionsNone commitOptionsNone ⟨jsStr "commit-0"⟩ ⟨jsStr "commit-1"⟩).1,
   (c3_pending_job_derivation wit_q0 wit_q1 wit_q2 (jsStr "p1") (jsStr "p2") (jsStr "p3")
      commitOptionsNone commitOptionsNone commitOptionsNone ⟨jsStr "commit-0"⟩ ⟨jsStr "commit-1"⟩).2.2.2
     (by decide) (by decide)⟩

/-- A repository whose current branch has no commits yet: the log read
fails with exactly the fatal message the code matches on. -/
def wit_bootstrap_git : GitState :=
  { isRepo := true, currentBranch := jsStr "main",
    log := .error (noCommitsFatalMessage (jsStr "main")),
    hasRemote := false, pushRejects := false, nextHashId := 0 }

/-- A repository whose log read fails with an unrelated fatal error. -/
def wit_badlog_git : GitState :=
  { isRepo := true, currentBranch := jsStr "main",
    log := .error (jsStr "fatal: unable to read tree"),
    hasRemote := false, pushRejects := false, nextHashId := 0 }

/-- A directory that is not a git repository. -/
def wit_norepo_git : GitState :=
  { isRepo := false, currentBranch := jsStr "main", log := .ok [],
    hasRemote := false, pushRejects := false, nextHashId := 0 }

theorem c7_witness :
    Queue.create (jsStr "wq") (jsStr "dir") wit_norepo_git = .error (.notARepository (jsStr "dir")) ∧
    (Queue.create (jsStr "wq") (jsStr "dir") wit_bootstrap_git
       = .ok ⟨jsStr "wq", jsStr "dir", wit_bootstrap_git, []⟩ ∧
     (⟨jsStr "wq", jsStr "dir", wit_bootstrap_git, []⟩ : Queue).getNextJob = nullMessage ∧
     (∀ payload opts, ∃ q' c,
       (⟨jsStr "wq", jsStr "dir", wit_bootstrap_git, []⟩ : Queue).createJob payload opts
         = (q', .ok c))) ∧
    Queue.create (jsStr "wq") (jsStr "dir") wit_badlog_git
      = .error (.logError (jsStr "fatal: unable to read tree")) :=
  ⟨(c7_empty_repository_bootstrap (jsStr "wq") (jsStr "dir") wit_norepo_git).1 (by decide),
   ((c7_empty_repository_bootstrap (jsStr "wq") (jsStr "dir") wit_bootstrap_git).2
     (noCommitsFatalMessage (jsStr "main")) (by decide) (by decide)).1 (by decide),
   ((c7_empty_repository_bootstrap (jsStr "wq") (jsStr "dir") wit_badlog_git).2
     (jsStr "fatal: unable to read tree") (by decide) (by decide)).2 (by decide)⟩

theorem c8_witness :
    (⟨[], jsStr "AB12", false⟩ : CommitOptions).forSimpleGit.gpgSign = some (jsStr "AB12") ∧
    (⟨[], [], true⟩ : CommitOptions).forSimpleGit.gpgSign = none ∧
    (((⟨[], [], true⟩ : CommitOptions).forSimpleGit.gpgSign.isSome = true ∧
       (⟨[], [], true⟩ : CommitOptions).forSimpleGit.noGpgSign = false) ∨
     ((⟨[], [], true⟩ : CommitOptions).forSimpleGit.gpgSign = none ∧
       (⟨[], [], true⟩ : CommitOptions).forSimpleGit.noGpgSign = true) ∨
     ((⟨[], [], true⟩ : CommitOptions).forSimpleGit.gpgSign = none ∧
       (⟨[], [], true⟩ : CommitOptions).forSimpleGit.noGpgSign = false)) ∧
    ((⟨[], jsStr "AB12", true⟩ : CommitOptions).forSimpleGit.gpgSign.isSome = true ∧
      (⟨[], jsStr "AB12", true⟩ : CommitOptions).forSimpleGit.noGpgSign = true) :=
  ⟨(c8_signing_discipline ⟨[], jsStr "AB12", false⟩).1 (by decide),
   (c8_signing_discipline ⟨[], [], true⟩).2.1 (by decide),
   (c8_signing_discipline ⟨[], [], true⟩).2.2.2.1 (by decide),
   (c8_signing_discipline ⟨[], jsStr "AB12", true⟩).2.2.2.2 (by decide) rfl⟩

/-- Queue `a` freshly created on the empty repository. -/
def c1w_q0 : Queue := ⟨jsStr "a", jsStr "dir", wit_git, []⟩

/-- Queue `a` after its `createJob` (one pending job). -/
def c1w_q1 : Queue := (c1w_q0.createJob (jsStr "pay") commitOptionsNone).1

theorem c1_isolation_amended_witness :
    (∃ qB, Queue.create (jsStr "b") (jsStr "dir") c1w_q1.git = .ok qB ∧
      qB.storedMessages = (⟨jsStr "b", jsStr "dir", c1w_q0.git, []⟩ : Queue).storedMessages ∧
      qB.getNextJob = (⟨jsStr "b", jsStr "dir", c1w_q0.git, []⟩ : Queue).getNextJob) ∧
    (∃ qB, Queue.create (jsStr "b") (jsStr "dir")
        ((c1w_q1.markJobAsDone (jsStr "done") commitOptionsNone).1).git = .ok qB ∧
      qB.storedMessages = (⟨jsStr "b", jsStr "dir", c1w_q1.git, []⟩ : Queue).storedMessages ∧
      qB.getNextJob = (⟨jsStr "b", jsStr "dir", c1w_q1.git, []⟩ : Queue).getNextJob) :=
  ⟨(c1_isolation_amended c1w_q0 c1w_q1 ⟨jsStr "b", jsStr "dir", c1w_q0.git, []⟩
      (jsStr "b") (jsStr "dir") (jsStr "pay") commitOptionsNone ⟨jsStr "commit-0"⟩ (by decide)).1
     (by decide) (by decide),
   (c1_isolation_amended c1w_q1 (c1w_q1.markJobAsDone (jsStr "done") commitOptionsNone).1
      ⟨jsStr "b", jsStr "dir", c1w_q1.git, []⟩
      (jsStr "b") (jsStr "dir") (jsStr "done") commitOptionsNone ⟨jsStr "commit-1"⟩ (by decide)).2
     (by decide) (by decide)⟩
